import Mathlib

/-!
# Verification of the lfc-portlets selection/rendering core

Shallow embedding of `src/lfc_portlets/models.py`: the four portlet kinds
(Navigation, Content, Random, Text) with their `render` selection logic.
External collaborators (the ORM catalog query, the tagging manager's
`with_all`, the permission/active predicates, the registration lookup,
and the template renderer) are modelled at the call boundary:

* a catalog row (`BaseContent` joined with its resolved content object)
  becomes an `Item` carrying its language, its tag set, and the boolean
  results of the three external checks for the requesting principal
  (`registration.get_info` truthiness, `has_permission(user, "view")`,
  `is_active(user)`);
* the tag filter is the parsed tag list handed to
  `ModelTaggedItemManager().with_all`; the Python truthiness test
  `if self.tags:` corresponds to the list being non-empty;
* `random.shuffle` is modelled by quantifying over an arbitrary
  permutation of the materialized list;
* `render_to_string` is opaque, so each `render` is embedded as the data
  it passes to the template (or, for ContentPortlet, the selected object
  list), and `context.get("request")` as an `Option Request`; the
  attribute access `request.user` on a missing request is the one failure
  point, embedded with `Except`.
-/

/-- A catalog row as ContentPortlet/RandomPortlet see it: a `BaseContent`
object together with the externally determined facts the selection logic
consults.  `registered` is the truthiness of
`lfc.utils.registration.get_info(obj)`, `permitted` the result of
`obj.has_permission(request.user, "view")` and `active` the result of
`obj.is_active(request.user)` for the requesting principal. -/
structure Item where
  id : Nat
  language : String
  tags : List String
  registered : Bool
  permitted : Bool
  active : Bool
deriving DecidableEq, Repr

/-- The request object found in the render context (`context.get("request")`
yields `none` when the key is absent).  Only its `user` attribute is read. -/
structure Request where
  user : String
deriving DecidableEq, Repr

/-- A render context: the `"request"` entry plus all other entries, which the
portlet renders never read. -/
structure Context where
  request : Option Request
  extra : List (String × String)
deriving DecidableEq, Repr

/-- The language wildcard `"0"` used in
`BaseContent.objects.filter(language__in=("0", translation.get_language()))`. -/
def wildcardLanguage : String := "0"

/-- `BaseContent.objects.filter(language__in=("0", translation.get_language()))`:
keep items whose language is the wildcard or the current active language. -/
def langFilter (lang : String) (catalog : List Item) : List Item :=
  catalog.filter (fun i => i.language == wildcardLanguage || i.language == lang)

/-- `ModelTaggedItemManager().with_all(tags, qs)` membership test: the item
carries every tag of the filter (conjunctive match). -/
def hasAllTags (tagFilter : List String) (i : Item) : Bool :=
  tagFilter.all (fun t => i.tags.contains t)

/-- The language- and tag-filtered catalog (no cap): the queryset before any
`[:limit]` slice is taken. -/
def filteredCatalog (tagFilter : List String) (lang : String)
    (catalog : List Item) : List Item :=
  let temp := langFilter lang catalog
  if tagFilter.isEmpty then temp else temp.filter (hasAllTags tagFilter)

/-- `ContentPortlet.render`, lines 92-95: the candidate list `temp` after the
language filter, the tag branch and the `[:self.limit]` slice.  Both branches
slice at `limit`. -/
def contentCandidates (tagFilter : List String) (limit : Nat) (lang : String)
    (catalog : List Item) : List Item :=
  let temp := langFilter lang catalog
  if tagFilter.isEmpty then temp.take limit
  else (temp.filter (hasAllTags tagFilter)).take limit

/-- One iteration of ContentPortlet's loop body:
`get_info(obj) and obj.has_permission(request.user, "view") and obj.is_active(request.user)`.
Python's `and` short-circuits, so `request.user` is only dereferenced when
`get_info(obj)` is truthy; with no request in the context that dereference
raises (`Except.error`). -/
def contentCheck (request : Option Request) (obj : Item) : Except Unit Bool :=
  if obj.registered then
    match request with
    | none => Except.error ()
    | some _ => Except.ok (obj.permitted && obj.active)
  else
    Except.ok false

/-- ContentPortlet's accumulation loop over the candidates: append each object
passing `contentCheck`, propagating the failure of a check that dereferences a
missing request. -/
def contentCollect (request : Option Request) : List Item → Except Unit (List Item)
  | [] => Except.ok []
  | obj :: rest =>
    match contentCheck request obj with
    | Except.error e => Except.error e
    | Except.ok true => (contentCollect request rest).map (fun objs => obj :: objs)
    | Except.ok false => contentCollect request rest

/-- `ContentPortlet.render`: the `objs` list passed to the template, or the
error raised while computing it. -/
def contentRender (tagFilter : List String) (limit : Nat) (lang : String)
    (request : Option Request) (catalog : List Item) : Except Unit (List Item) :=
  contentCollect request (contentCandidates tagFilter limit lang catalog)

/-- `RandomPortlet.render`, lines 141-147: the list materialized just before
`random.shuffle`.  The `[:self.limit]` slice sits inside the tag branch, so it
is applied only when the tag filter is non-empty. -/
def randomCandidates (tagFilter : List String) (limit : Nat) (lang : String)
    (catalog : List Item) : List Item :=
  let items := langFilter lang catalog
  if tagFilter.isEmpty then items
  else (items.filter (hasAllTags tagFilter)).take limit

/-- `RandomPortlet.render` outcome relation: `out` is a possible `items` value
passed to the template — some permutation (the result of `random.shuffle`) of
the materialized candidates, truncated by the final `items[:self.limit]`. -/
def RandomOutput (tagFilter : List String) (limit : Nat) (lang : String)
    (catalog : List Item) (out : List Item) : Prop :=
  ∃ shuffled : List Item,
    shuffled.Perm (randomCandidates tagFilter limit lang catalog) ∧
    out = shuffled.take limit

/-- NavigationPortlet's persisted state: `start_level`, `expand_level` and the
inherited `title`. -/
structure NavigationPortlet where
  title : String
  start_level : Nat
  expand_level : Nat
deriving DecidableEq, Repr

/-- The data `NavigationPortlet.render` hands to `render_to_string`: the fixed
template name, the request forwarded into `RequestContext`, and the three
explicit template variables. -/
structure NavRenderCall where
  template : String
  request : Option Request
  start_level : Nat
  expand_level : Nat
  title : String
deriving DecidableEq, Repr

/-- `NavigationPortlet.render`, lines 44-52. -/
def NavigationPortlet.render (p : NavigationPortlet) (context : Context) :
    NavRenderCall :=
  { template := "lfc/portlets/navigation_portlet.html"
    request := context.request
    start_level := p.start_level
    expand_level := p.expand_level
    title := p.title }

/-- TextPortlet's persisted state: the free text and the inherited title. -/
structure TextPortlet where
  title : String
  text : String
deriving DecidableEq, Repr

/-- The data `TextPortlet.render` hands to `render_to_string`. -/
structure TextRenderCall where
  template : String
  title : String
  text : String
deriving DecidableEq, Repr

/-- `TextPortlet.render`, lines 184-190: the context argument is ignored and
the stored text is forwarded untouched. -/
def TextPortlet.render (p : TextPortlet) (_context : Context) : TextRenderCall :=
  { template := "lfc/portlets/text_portlet.html"
    title := p.title
    text := p.text }

/-! ## Concrete items used in examples and counterexamples -/

/-- Wildcard-language item with no tags, registered and active but NOT
permitted. -/
def itemA1 : Item := ⟨1, "0", [], true, false, true⟩

/-- Wildcard-language item with no tags, registered, permitted and active. -/
def itemB1 : Item := ⟨2, "0", [], true, true, true⟩

/-- Wildcard-language item tagged `"x"`, registered, permitted and active. -/
def itemAx : Item := ⟨3, "0", ["x"], true, true, true⟩

/-- A second wildcard-language item tagged `"x"`, registered, permitted and
active. -/
def itemBx : Item := ⟨4, "0", ["x"], true, true, true⟩

/-- Wildcard-language item tagged `"x"`, registered and active but NOT
permitted. -/
def itemCx : Item := ⟨5, "0", ["x"], true, false, true⟩

/-! ## Helper lemmas -/

/-- With a request present the loop never fails and simply filters the
candidates by the conjunction of the three checks. -/
theorem contentCollect_some (u : Request) (l : List Item) :
    contentCollect (some u) l
      = Except.ok (l.filter (fun o => o.registered && o.permitted && o.active)) := by
  induction l with
  | nil => rfl
  | cons obj rest ih =>
    by_cases hr : obj.registered = true
    · by_cases hpa : (obj.permitted && obj.active) = true
      · simp [contentCollect, contentCheck, hr, hpa, ih, List.filter_cons,
          Bool.and_assoc, Except.map]
      · simp [contentCollect, contentCheck, hr, hpa, ih, List.filter_cons,
          Bool.and_assoc]
    · simp [contentCollect, contentCheck, hr, ih, List.filter_cons]

/-- With a request present `ContentPortlet.render` returns exactly the capped
candidates filtered by registration, permission and active state. -/
theorem contentRender_some (tagFilter : List String) (limit : Nat)
    (lang : String) (u : Request) (catalog : List Item) :
    contentRender tagFilter limit lang (some u) catalog
      = Except.ok ((contentCandidates tagFilter limit lang catalog).filter
          (fun o => o.registered && o.permitted && o.active)) :=
  contentCollect_some u _

/-- ContentPortlet's candidate list is the first `limit` items of the
language/tag-filtered catalog. -/
theorem contentCandidates_eq (tagFilter : List String) (limit : Nat)
    (lang : String) (catalog : List Item) :
    contentCandidates tagFilter limit lang catalog
      = (filteredCatalog tagFilter lang catalog).take limit := by
  unfold contentCandidates filteredCatalog
  by_cases h : tagFilter.isEmpty <;> simp [h]

/-- RandomPortlet's materialized candidates all lie in the language/tag-filtered
catalog. -/
theorem randomCandidates_subset (tagFilter : List String) (limit : Nat)
    (lang : String) (catalog : List Item) :
    ∀ x ∈ randomCandidates tagFilter limit lang catalog,
      x ∈ filteredCatalog tagFilter lang catalog := by
  intro x hx
  unfold randomCandidates filteredCatalog at *
  by_cases h : tagFilter.isEmpty
  · simpa [h] using hx
  · simp only [h, if_neg, Bool.false_eq_true, if_false] at hx ⊢
    exact List.mem_of_mem_take hx

/-- When the limit covers the whole filtered catalog, RandomPortlet's
candidates ARE the whole filtered catalog. -/
theorem randomCandidates_of_le (tagFilter : List String) (limit : Nat)
    (lang : String) (catalog : List Item)
    (h : (filteredCatalog tagFilter lang catalog).length ≤ limit) :
    randomCandidates tagFilter limit lang catalog
      = filteredCatalog tagFilter lang catalog := by
  unfold randomCandidates filteredCatalog at *
  by_cases he : tagFilter.isEmpty
  · simp [he]
  · simp only [he, Bool.false_eq_true, if_false] at h ⊢
    exact List.take_of_length_le h

/-! ## Claims -/

/-- C1: ContentPortlet selection caps the language/tag-filtered catalog at
`limit` BEFORE the registration/permission/active filter: every returned item
lies among the first `limit` items of the filtered catalog, and for
catalog = [A(permitted=False), B(permitted=True)] with limit = 1 the output is
empty even though B qualifies. -/
theorem C1_cap_before_filter :
    (∀ (tagFilter : List String) (limit : Nat) (lang : String) (u : Request)
        (catalog out : List Item),
        contentRender tagFilter limit lang (some u) catalog = Except.ok out →
        ∀ x ∈ out, x ∈ (filteredCatalog tagFilter lang catalog).take limit)
    ∧ contentRender [] 1 "en" (some ⟨"alice"⟩) [itemA1, itemB1]
        = Except.ok [] := by
  constructor
  · intro tagFilter limit lang u catalog out h x hx
    rw [contentRender_some] at h
    have hout : out = (contentCandidates tagFilter limit lang catalog).filter
        (fun o => o.registered && o.permitted && o.active) := by
      exact (Except.ok.injEq _ _).mp h.symm
    rw [hout, List.mem_filter] at hx
    rw [← contentCandidates_eq]
    exact hx.1
  · rfl

/-- Witness for C1: a returned item really does sit in the capped prefix of
the filtered catalog. -/
theorem C1_cap_before_filter_witness :
    itemB1 ∈ (filteredCatalog [] "en" [itemB1]).take 1 :=
  C1_cap_before_filter.1 [] 1 "en" ⟨"alice"⟩ [itemB1] [itemB1] rfl itemB1
    (by simp)

/-- C2 counterexample: with tag filter `["x"]` and limit 1 on a catalog of two
matching items, item B is in the full language/tag-filtered catalog, yet the
cap applied at the tag-filtering stage drops it from the materialized
candidates, so B appears in NO possible output — refuting "every item of the
full filtered set can appear in the output". -/
theorem C2_no_cap_counterexample :
    itemBx ∈ filteredCatalog ["x"] "en" [itemAx, itemBx]
    ∧ randomCandidates ["x"] 1 "en" [itemAx, itemBx] = [itemAx]
    ∧ ∀ out, RandomOutput ["x"] 1 "en" [itemAx, itemBx] out →
        itemBx ∉ out := by
  refine ⟨by decide, by decide, ?_⟩
  rintro out ⟨shuffled, hp, rfl⟩
  have hc : randomCandidates ["x"] 1 "en" [itemAx, itemBx] = [itemAx] := by
    decide
  rw [hc] at hp
  have hs : shuffled = [itemAx] := List.perm_singleton.mp hp
  rw [hs]
  intro hmem
  have : itemBx = itemAx := by
    simpa using List.mem_of_mem_take hmem
  exact absurd this (by decide)

/-- C2 amended: in RandomPortlet selection with a non-empty tag filter the cap
IS applied at the tag-filtering stage — only the first `limit` items of the
language- and tag-filtered catalog are materialized and shuffled, so every
output item lies in that capped prefix. -/
theorem C2_cap_at_tag_stage (tagFilter : List String) (limit : Nat)
    (lang : String) (catalog out : List Item)
    (hne : tagFilter ≠ [])
    (h : RandomOutput tagFilter limit lang catalog out) :
    ∀ x ∈ out,
      x ∈ ((langFilter lang catalog).filter (hasAllTags tagFilter)).take limit := by
  obtain ⟨shuffled, hp, rfl⟩ := h
  intro x hx
  have hx1 : x ∈ shuffled := List.mem_of_mem_take hx
  have hx2 : x ∈ randomCandidates tagFilter limit lang catalog :=
    hp.mem_iff.mp hx1
  unfold randomCandidates at hx2
  have hne2 : tagFilter.isEmpty = false := by
    cases tagFilter with
    | nil => exact absurd rfl hne
    | cons a l => rfl
  simpa [hne2] using hx2

/-- Witness for C2 amended. -/
theorem C2_cap_at_tag_stage_witness :
    itemAx ∈ ((langFilter "en" [itemAx]).filter (hasAllTags ["x"])).take 1 :=
  C2_cap_at_tag_stage ["x"] 1 "en" [itemAx] [itemAx] (by decide)
    ⟨[itemAx], List.Perm.refl _, rfl⟩ itemAx (by simp)

/-- C3: with limit = 0 both ContentPortlet selection (for any request, present
or absent) and RandomPortlet selection return the empty sequence. -/
theorem C3_limit_zero :
    (∀ (tagFilter : List String) (lang : String) (request : Option Request)
        (catalog : List Item),
        contentRender tagFilter 0 lang request catalog = Except.ok [])
    ∧ (∀ (tagFilter : List String) (lang : String) (catalog out : List Item),
        RandomOutput tagFilter 0 lang catalog out → out = []) := by
  constructor
  · intro tagFilter lang request catalog
    unfold contentRender
    rw [contentCandidates_eq, List.take_zero]
    rfl
  · rintro tagFilter lang catalog out ⟨shuffled, hp, rfl⟩
    exact List.take_zero shuffled

/-- Witness for C3: both conjuncts discharged at concrete inputs. -/
theorem C3_limit_zero_witness :
    contentRender ["x"] 0 "en" none [itemAx] = Except.ok []
    ∧ ([] : List Item) = [] :=
  ⟨C3_limit_zero.1 ["x"] "en" none [itemAx],
   C3_limit_zero.2 [] "en" [itemB1] [] ⟨[itemB1], List.Perm.refl _, rfl⟩⟩

/-- C4: with a non-empty tag filter T, every item ContentPortlet returns
carries every tag of T (conjunctive match). -/
theorem C4_conjunctive_tag_match (tagFilter : List String) (limit : Nat)
    (lang : String) (u : Request) (catalog out : List Item)
    (hne : tagFilter ≠ [])
    (h : contentRender tagFilter limit lang (some u) catalog = Except.ok out) :
    ∀ x ∈ out, ∀ t ∈ tagFilter, t ∈ x.tags := by
  intro x hx t ht
  rw [contentRender_some] at h
  have hout : out = (contentCandidates tagFilter limit lang catalog).filter
      (fun o => o.registered && o.permitted && o.active) :=
    (Except.ok.injEq _ _).mp h.symm
  rw [hout, List.mem_filter] at hx
  have hx1 := hx.1
  unfold contentCandidates at hx1
  have hne2 : tagFilter.isEmpty = false := by
    cases tagFilter with
    | nil => exact absurd rfl hne
    | cons a l => rfl
  rw [if_neg (by simp [hne2])] at hx1
  have hx2 : x ∈ (langFilter lang catalog).filter (hasAllTags tagFilter) :=
    List.mem_of_mem_take hx1
  rw [List.mem_filter] at hx2
  have hall : hasAllTags tagFilter x = true := hx2.2
  unfold hasAllTags at hall
  rw [List.all_eq_true] at hall
  simpa using hall t ht

/-- Witness for C4. -/
theorem C4_conjunctive_tag_match_witness : "x" ∈ itemAx.tags :=
  C4_conjunctive_tag_match ["x"] 5 "en" ⟨"alice"⟩ [itemAx] [itemAx]
    (by decide) rfl itemAx (by simp) "x" (by simp)

/-- C5: ContentPortlet excludes every item failing the permission or active
check even when it matches the tag and language filters; concretely, for
catalog = [A(tags={"x"}, permitted), B(tags={"x"}, not permitted)], tags "x",
limit 5, the output is exactly [A]. -/
theorem C5_permission_active_excluded :
    (∀ (tagFilter : List String) (limit : Nat) (lang : String) (u : Request)
        (catalog out : List Item),
        contentRender tagFilter limit lang (some u) catalog = Except.ok out →
        ∀ x ∈ out, x.permitted = true ∧ x.active = true)
    ∧ contentRender ["x"] 5 "en" (some ⟨"alice"⟩) [itemAx, itemCx]
        = Except.ok [itemAx] := by
  constructor
  · intro tagFilter limit lang u catalog out h x hx
    rw [contentRender_some] at h
    have hout : out = (contentCandidates tagFilter limit lang catalog).filter
        (fun o => o.registered && o.permitted && o.active) :=
      (Except.ok.injEq _ _).mp h.symm
    rw [hout, List.mem_filter] at hx
    have := hx.2
    simp only [Bool.and_eq_true] at this
    exact ⟨this.1.2, this.2⟩
  · rfl

/-- Witness for C5: the surviving item indeed passes both checks. -/
theorem C5_permission_active_excluded_witness :
    itemAx.permitted = true ∧ itemAx.active = true :=
  C5_permission_active_excluded.1 ["x"] 5 "en" ⟨"alice"⟩ [itemAx, itemCx]
    [itemAx] rfl itemAx (by simp)

/-- C6: RandomPortlet's output is always a subset of the language/tag-filtered
catalog with at most `limit` items, and once `limit` covers the whole filtered
catalog the output is a permutation of it. -/
theorem C6_random_subset_and_perm (tagFilter : List String) (limit : Nat)
    (lang : String) (catalog out : List Item)
    (h : RandomOutput tagFilter limit lang catalog out) :
    (∀ x ∈ out, x ∈ filteredCatalog tagFilter lang catalog)
    ∧ out.length ≤ limit
    ∧ ((filteredCatalog tagFilter lang catalog).length ≤ limit →
        out.Perm (filteredCatalog tagFilter lang catalog)) := by
  obtain ⟨shuffled, hp, rfl⟩ := h
  refine ⟨?_, ?_, ?_⟩
  · intro x hx
    exact randomCandidates_subset tagFilter limit lang catalog x
      (hp.mem_iff.mp (List.mem_of_mem_take hx))
  · rw [List.length_take]
    exact Nat.min_le_left _ _
  · intro hle
    have hc := randomCandidates_of_le tagFilter limit lang catalog hle
    rw [hc] at hp
    have hlen : shuffled.length ≤ limit := by
      rw [hp.length_eq]
      exact hle
    rw [List.take_of_length_le hlen]
    exact hp

/-- Witness for C6. -/
theorem C6_random_subset_and_perm_witness :
    (∀ x ∈ [itemB1], x ∈ filteredCatalog [] "en" [itemB1])
    ∧ ([itemB1] : List Item).length ≤ 1
    ∧ ((filteredCatalog [] "en" [itemB1]).length ≤ 1 →
        ([itemB1] : List Item).Perm (filteredCatalog [] "en" [itemB1])) :=
  C6_random_subset_and_perm [] 1 "en" [itemB1] [itemB1]
    ⟨[itemB1], List.Perm.refl _, rfl⟩

/-- C7: TextPortlet's render forwards the stored text verbatim into the
template context — for every portlet state and every context, the `text` value
handed to the template equals the stored string, and the whole call carries
exactly the fixed template name, the stored title and the stored text. -/
theorem C7_text_verbatim (p : TextPortlet) (c : Context) :
    (TextPortlet.render p c).text = p.text
    ∧ TextPortlet.render p c
        = { template := "lfc/portlets/text_portlet.html"
            title := p.title
            text := p.text } :=
  ⟨rfl, rfl⟩

/-- C8 counterexample: one portlet state with two contexts (so start_level,
expand_level and title trivially agree) whose requests differ produces two
DIFFERENT render calls, because the request is forwarded into the
RequestContext — refuting invariance to all inputs except the three fields. -/
theorem C8_invariance_counterexample :
    NavigationPortlet.render ⟨"nav", 1, 0⟩ ⟨some ⟨"alice"⟩, []⟩
      ≠ NavigationPortlet.render ⟨"nav", 1, 0⟩ ⟨some ⟨"bob"⟩, []⟩ := by
  decide

/-- C8 amended: NavigationPortlet's render is invariant to all inputs except
start_level, expand_level, title AND the forwarded request: any two states and
contexts agreeing on those four produce identical render calls (in particular
every other context entry is ignored — pure parameter forwarding). -/
theorem C8_invariance_amended (p1 p2 : NavigationPortlet) (c1 c2 : Context)
    (hs : p1.start_level = p2.start_level)
    (he : p1.expand_level = p2.expand_level)
    (ht : p1.title = p2.title)
    (hr : c1.request = c2.request) :
    NavigationPortlet.render p1 c1 = NavigationPortlet.render p2 c2 := by
  unfold NavigationPortlet.render
  rw [hs, he, ht, hr]

/-- Witness for C8 amended: contexts differing only in their extra entries
render identically. -/
theorem C8_invariance_amended_witness :
    NavigationPortlet.render ⟨"nav", 1, 0⟩ ⟨some ⟨"alice"⟩, []⟩
      = NavigationPortlet.render ⟨"nav", 1, 0⟩ ⟨some ⟨"alice"⟩, [("k", "v")]⟩ :=
  C8_invariance_amended ⟨"nav", 1, 0⟩ ⟨"nav", 1, 0⟩ _ _ rfl rfl rfl rfl

/-- C9 counterexample: ContentPortlet's render DOES surface an error for some
input — a context without a request and a catalog whose surviving candidate is
registered makes the permission check dereference the missing request. -/
theorem C9_no_error_counterexample :
    contentRender [] 5 "en" none [itemB1] = Except.error () := by
  rfl

/-- C9 amended: provided the context supplies a request, ContentPortlet's
render never surfaces an error; a missing registration entry and a failed
permission or active check silently exclude the item, and the output is
exactly the capped candidates passing all three checks — an empty sequence is
the only failure signal. -/
theorem C9_silent_exclusion (tagFilter : List String) (limit : Nat)
    (lang : String) (u : Request) (catalog : List Item) :
    contentRender tagFilter limit lang (some u) catalog
      = Except.ok ((contentCandidates tagFilter limit lang catalog).filter
          (fun o => o.registered && o.permitted && o.active)) :=
  contentRender_some tagFilter limit lang u catalog

/-- C10: ContentPortlet.render dereferences the request taken from the
context: with no request and a registered candidate surviving the cap, the
operation fails rather than returning an empty result, while with an empty
surviving candidate set (empty catalog, or limit 0) it succeeds without a
request. -/
theorem C10_request_dereference :
    contentRender [] 5 "en" none [itemA1] = Except.error ()
    ∧ contentRender [] 5 "en" none [] = Except.ok []
    ∧ contentRender [] 0 "en" none [itemA1] = Except.ok [] :=
  ⟨rfl, rfl, rfl⟩
